import Mathlib

/-!
Shallow embedding of the Cantera `IDA_Solver` DAE-integration adapter
(`src/numerics/IDA_Solver.cpp`) and of the two C callbacks it registers with
the IDAS engine (`ida_resid`, `ida_quad_rhs`).

Modelling conventions:
* machine doubles are modelled as `ℚ`; `size_t` / `int` counters as `Nat` / `Int`;
* the adapter object is a record `SState` of the member variables that the
  modelled operations read or write (members that no modelled operation
  observes — the dense/banded linear-solver handles, the id vector `m_id`,
  workspace counters — are omitted);
* the external IDAS engine is opaque: every engine call that returns a status
  flag receives that flag (and any out-parameters the engine would write) as
  an explicit argument of the embedded function, so a theorem quantifying over
  those arguments covers every engine behaviour; the constraint vector that
  has been registered with the live engine instance is tracked in the model
  field `engConstraints`;
* C++ member mutation followed by `throw` is modelled by returning the final
  state *alongside* an `Except` value: `SState × Except CanteraError α`;
* `cout` logging is modelled as a returned `List String` where a claim
  observes it; the index-echo print in `setConstraints` is not observed by
  any claim and is dropped.
-/

/-- A thrown `CanteraError(procedure, message)`. The message is kept as the
unformatted template string of the source. -/
structure CanteraError where
  procedure : String
  msg : String
  deriving DecidableEq

/-- IDAS status flag `IDA_SUCCESS` (from `idas.h`). -/
def IDA_SUCCESS : Int := 0

/-- IDAS status flag `IDA_TSTOP_RETURN` (from `idas.h`). -/
def IDA_TSTOP_RETURN : Int := 1

/-- IDAS status flag `IDA_ROOT_RETURN` (from `idas.h`). -/
def IDA_ROOT_RETURN : Int := 2

/-- IDAS status flag `IDA_WARNING` (from `idas.h`). -/
def IDA_WARNING : Int := 99

/-- IDAS status flag `IDA_MEM_FAIL` (from `idas.h`). -/
def IDA_MEM_FAIL : Int := -21

/-- IDAS status flag `IDA_ILL_INPUT` (from `idas.h`). -/
def IDA_ILL_INPUT : Int := -22

/-- Constraint tag `c_NONE`. Modelled from the spec: the tag constants and
`checkFlag` live in `DAE_Solver.h`, which is not among the provided sources;
the spec lists the five legal tags (none / ≥0 / >0 / ≤0 / <0) and a
commented-out copy of `checkFlag` appears in `IDA_Solver.cpp`. Values follow
Cantera's `DAE_Solver.h` constraint conventions. -/
def c_NONE : Int := 0

/-- Constraint tag `c_GE_ZERO` (component ≥ 0). Modelled from the spec, see
`c_NONE`. -/
def c_GE_ZERO : Int := 1

/-- Constraint tag `c_GT_ZERO` (component > 0). Modelled from the spec, see
`c_NONE`. -/
def c_GT_ZERO : Int := 2

/-- Constraint tag `c_LE_ZERO` (component ≤ 0). Modelled from the spec, see
`c_NONE`. -/
def c_LE_ZERO : Int := -1

/-- Constraint tag `c_LT_ZERO` (component < 0). Modelled from the spec, see
`c_NONE`. -/
def c_LT_ZERO : Int := -2

/-- Validity test for a constraint tag. Modelled from the spec (and from the
commented-out copy of `checkFlag` in `IDA_Solver.cpp` lines 384-394): a tag is
valid iff it is one of the five named constants. -/
def checkFlag (cflag : Int) : Bool :=
  cflag = c_NONE || cflag = c_GE_ZERO || cflag = c_GT_ZERO ||
    cflag = c_LE_ZERO || cflag = c_LT_ZERO

/-- Tolerance mode: `IDA_SS` scalar/scalar, `IDA_SV` scalar/vector. -/
inductive TolMode
  | SS
  | SV
  deriving DecidableEq

/-- Member variables of `IDA_Solver` that the modelled operations touch,
with the source's `m_` names. `engConstraints` additionally records the
constraint vector registered with the live engine instance (none while no
registration has been made on the current instance). -/
structure SState where
  m_neq : Nat
  m_ns : Nat
  m_t0 : ℚ
  m_told_old : ℚ
  m_told : ℚ
  m_tcurrent : ℚ
  m_deltat : ℚ
  m_sens_ok : Bool
  m_itol : TolMode
  m_reltol : ℚ
  m_abstols : ℚ
  m_abstol : Option (List ℚ)
  m_constraints : Option (List Int)
  m_y : List ℚ
  m_ydot : List ℚ
  m_yS : List (List ℚ)
  m_ySdot : List (List ℚ)
  m_yQ : Option (List ℚ)
  m_yQdot : Option (List ℚ)
  m_ida_mem : Bool
  engConstraints : Option (List Int)
  m_type : Int
  m_mupper : Int
  m_mlower : Int
  m_formJac : Int
  m_maxord : Int
  m_maxsteps : Int
  m_h0 : ℚ
  m_tstop : ℚ
  m_maxErrTestFails : Int
  m_maxNonlinIters : Int
  m_maxNonlinConvFails : Int
  m_setSuppressAlg : Int
  m_reltolsens : ℚ
  m_abstolsens : ℚ
  deriving DecidableEq

/-- The residual/Jacobian provider (`ResidJacEval`), reduced to the queries
`IDA_Solver::init` makes of it: quadrature-equation count, constraint count
and per-component constraint tags, and the initial conditions it writes into
the freshly allocated `m_y` / `m_ydot` buffers, plus the per-parameter scale
factors used by `sensInit`. -/
structure ResidJacEval where
  nQuad : Nat
  nConstraintsCount : Nat
  constraint : Nat → Int
  initY : ℚ → Nat → ℚ
  initYdot : ℚ → Nat → ℚ
  paramScales : List ℚ

/-- The provider reported success (status 0). -/
def providerSuccess (flag : Int) : Prop := flag = 0

/-- The provider reported a recoverable failure (positive status). -/
def providerRecoverable (flag : Int) : Prop := 0 < flag

/-- The provider reported an unrecoverable failure (negative status). -/
def providerUnrecoverable (flag : Int) : Prop := flag < 0

/-- The residual callback `ida_resid` registered with IDAS, as a function of
the status the provider's `evalResidNJ` returned for this evaluation. The
buffer marshalling and the `getCurrentStepFromIDA` query do not affect the
returned flag and are not modelled. Source: `if (flag < 0) return flag; else
return 0;`. -/
def ida_resid (evalFlag : Int) : Int :=
  if evalFlag < 0 then evalFlag else 0

/-- The quadrature right-hand-side callback `ida_quad_rhs` registered with
IDAS, as a function of the status the provider's `evalQuadRhs` returned.
Source: `if (flag < 0) return flag; else return 0;`. -/
def ida_quad_rhs (evalFlag : Int) : Int :=
  if evalFlag < 0 then evalFlag else 0

/-- `IDA_Solver::setTolerances(double reltol, double* abstol)` — the
per-component (scalar relative / vector absolute) overload. `engFlag` is the
status `IDASVtolerances` returns when an engine instance exists; `abstol` is
the caller's array, read at indices `0..m_neq-1`. -/
def setTolerancesSV (engFlag : Int) (reltol : ℚ) (abstol : Nat → ℚ)
    (s : SState) : SState × Except CanteraError Unit :=
  let s1 : SState := { s with
    m_itol := TolMode.SV,
    m_abstol := some ((List.range s.m_neq).map abstol),
    m_reltol := reltol }
  if s1.m_ida_mem then
    if engFlag ≠ IDA_SUCCESS then
      (s1, .error ⟨"IDA_Solver::setTolerances", "Memory allocation failed."⟩)
    else (s1, .ok ())
  else (s1, .ok ())

/-- `IDA_Solver::setTolerances(doublereal reltol, doublereal abstol)` — the
scalar/scalar overload. `engFlag` is the status `IDASStolerances` returns
when an engine instance exists. -/
def setTolerancesSS (engFlag : Int) (reltol abstol : ℚ)
    (s : SState) : SState × Except CanteraError Unit :=
  let s1 : SState := { s with
    m_itol := TolMode.SS,
    m_reltol := reltol,
    m_abstols := abstol }
  if s1.m_ida_mem then
    if engFlag ≠ IDA_SUCCESS then
      (s1, .error ⟨"IDA_Solver::setTolerances", "Call to IDASStolerances failed."⟩)
    else (s1, .ok ())
  else (s1, .ok ())

/-- The validate-and-write loop of `IDA_Solver::setConstraints`: starting at
index `i` with `fuel` components left, each iteration reads `cf i`, aborts
with `false` if the tag is invalid (the index is not written), and otherwise
writes the tag and advances. Returns the vector after the writes performed and
whether the whole loop completed. -/
def setConstraintsLoop (cf : Nat → Int) : Nat → Nat → List Int → List Int × Bool
  | _, 0, v => (v, true)
  | i, fuel + 1, v =>
    let cflag := cf i
    if checkFlag cflag then setConstraintsLoop cf (i + 1) fuel (v.set i cflag)
    else (v, false)

/-- `IDA_Solver::setConstraints(const int* constraintFlags)` — the
whole-vector constraint setter. `engFlag` is the status `IDASetConstraints`
returns when an engine instance exists. A fresh `N_VNew_Serial` vector has
unspecified contents; it is modelled as zeros (no modelled claim observes
that case). -/
def setConstraints (engFlag : Int) (cf : Nat → Int)
    (s : SState) : SState × Except CanteraError Unit :=
  let v0 : List Int := s.m_constraints.getD (List.replicate s.m_neq 0)
  match setConstraintsLoop cf 0 s.m_neq v0 with
  | (v, false) =>
    ({ s with m_constraints := some v },
      .error ⟨"IDA_Solver::setConstraints", "Invalid Constraint vaue detected"⟩)
  | (v, true) =>
    let s1 : SState := { s with m_constraints := some v }
    if s1.m_ida_mem then
      if engFlag ≠ IDA_SUCCESS then
        (s1, .error ⟨"IDA_Solver::setConstraints", "IDASetConstraint failed."⟩)
      else ({ s1 with engConstraints := some v }, .ok ())
    else (s1, .ok ())

/-- Which engine sensitivity fetch `IDA_Solver::sensitivity` performed. -/
inductive SensFetch
  | consistentIC
  | postStep
  deriving DecidableEq

/-- Engine responses for the two possible sensitivity fetches: the status and
fetched matrix of `IDAGetSensConsistentIC`, and the status, reported time and
fetched matrix of `IDAGetSens`. -/
structure SensResp where
  flagIC : Int
  ySIC : List (List ℚ)
  flagPost : Int
  tretPost : ℚ
  ySPost : List (List ℚ)
  deriving DecidableEq

/-- `IDA_Solver::sensitivity(size_t k, size_t p)`. Also returns the list of
engine fetches performed. The source's branch condition is
`if (m_tcurrent = m_t0)` — an assignment, not a comparison: it stores `m_t0`
into `m_tcurrent` and then branches on whether the assigned value is
nonzero. `IDAGetSens` writes its reported time through `&m_tcurrent`. -/
def sensitivity (resp : SensResp) (k p : Nat)
    (s : SState) : SState × List SensFetch × Except CanteraError ℚ :=
  let fetched : SState × List SensFetch × Except CanteraError Unit :=
    if s.m_sens_ok = false ∧ 0 < s.m_ns then
      let s1 : SState := { s with m_tcurrent := s.m_t0 }
      if s1.m_tcurrent ≠ 0 then
        if resp.flagIC ≠ IDA_SUCCESS then
          (s1, [SensFetch.consistentIC],
            .error ⟨"IDA_Solver::sensitivity", "IDAGetSensConsistentIC failed: error = {}"⟩)
        else
          ({ s1 with m_yS := resp.ySIC, m_sens_ok := true },
            [SensFetch.consistentIC], .ok ())
      else
        if resp.flagPost ≠ IDA_SUCCESS then
          (s1, [SensFetch.postStep],
            .error ⟨"IDA_Solver::sensitivity", "IDAGetSens failed: error = {}"⟩)
        else
          ({ s1 with m_tcurrent := resp.tretPost, m_yS := resp.ySPost, m_sens_ok := true },
            [SensFetch.postStep], .ok ())
    else (s, [], .ok ())
  match fetched with
  | (s2, tr, .error e) => (s2, tr, .error e)
  | (s2, tr, .ok _) =>
    if s2.m_neq ≤ k then
      (s2, tr, .error ⟨"IDA_Solver::sensitivity",
        "sensitivity: equation index out of range ({})"⟩)
    else if s2.m_ns ≤ p then
      (s2, tr, .error ⟨"IDA_Solver::sensitivity",
        "sensitivity: parameter index out of range ({})"⟩)
    else (s2, tr, .ok ((s2.m_yS.getD p []).getD k 0))

/-- `IDA_Solver::step(double tout)`. `flag` and `t` are the status and
reached time the engine's `IDASolve(..., IDA_ONE_STEP)` call would return;
the result does not consult them on the precondition-violation path, which
throws before the engine is invoked. -/
def step (flag : Int) (t : ℚ) (tout : ℚ)
    (s : SState) : SState × Except CanteraError ℚ :=
  if tout ≤ s.m_tcurrent then
    (s, .error ⟨"IDA_Solver::step", "tout <= tcurrent"⟩)
  else
    let s1 : SState := { s with m_told_old := s.m_told, m_told := s.m_tcurrent }
    let finish : SState × Except CanteraError ℚ :=
      ({ s1 with m_tcurrent := t, m_deltat := t - s1.m_told, m_sens_ok := false }, .ok t)
    if flag < 0 then
      (s1, .error ⟨"IDA_Solver::step", "IDA error encountered."⟩)
    else if flag = IDA_TSTOP_RETURN then finish
    else if flag = IDA_ROOT_RETURN then finish
    else if flag = IDA_WARNING then
      (s1, .error ⟨"IDA_Solver::step", "IDA Warning encountered."⟩)
    else finish

/-- The `while (tretn < tout)` loop of `IDA_Solver::solve`. `resp` is the
sequence of `(flag, tretn)` pairs the engine's successive
`IDASolve(..., IDA_NORMAL)` calls would return; an execution that would call
the engine more often than `resp` provides is outside the modelled runs and
yields a reserved model error. `flag` / `tretn` are the C locals carried
between iterations; the accumulated `cout` lines are returned alongside. -/
def solveLoop (tout : ℚ) (resp : List (Int × ℚ)) (flag : Int) (tretn : ℚ)
    (s : SState) (log : List String) :
    SState × List String × Except CanteraError Int :=
  if tretn < tout then
    if tout ≤ s.m_tcurrent then
      (s, log ++ ["Simulation end time reached\n"], .ok flag)
    else
      match resp with
      | [] => (s, log, .error ⟨"model", "engine response list exhausted"⟩)
      | (f, tr) :: rest =>
        let s1 : SState := { s with m_told_old := s.m_told, m_told := s.m_tcurrent }
        if f < 0 then
          (s1, log, .error ⟨"IDA_Solver::solve", "IDA error encountered."⟩)
        else
          let log1 : List String :=
            if f = IDA_WARNING then log ++ ["DAE Solver WARNING!\n"] else log
          solveLoop tout rest f tr
            { s1 with m_tcurrent := tr, m_deltat := tr - s1.m_told } log1
  else (s, log, .ok flag)
termination_by resp.length
decreasing_by simp_all [List.length_cons]

/-- `IDA_Solver::solve(double tout)`. `stopFlag` is the status the engine's
`IDASetStopTime(m_ida_mem, tout)` call returns; `resp` the responses of the
successive `IDASolve` calls. The local `tretn` starts at `tout - 1000`, so
the loop body always runs at least once. -/
def solve (stopFlag : Int) (resp : List (Int × ℚ)) (tout : ℚ)
    (s : SState) : SState × List String × Except CanteraError Int :=
  if stopFlag ≠ IDA_SUCCESS then
    (s, [], .error ⟨"IDA_Solver::solve", "IDA error encountered."⟩)
  else
    match solveLoop tout resp stopFlag (tout - 1000) s [] with
    | (s1, log, .error e) => (s1, log, .error e)
    | (s1, log, .ok flag) =>
      if flag ≠ IDA_SUCCESS ∧ flag ≠ IDA_TSTOP_RETURN then
        (s1, log, .error ⟨"IDA_Solver::solve", "IDA error encountered."⟩)
      else ({ s1 with m_sens_ok := false }, log, .ok flag)

/-- Status flags (and allocation outcomes) for the engine calls
`IDA_Solver::init` makes, in source order. `denseMatrixOk` / `bandMatrixOk`
model whether `SUNDenseMatrix` / `SUNBandMatrix` creation returned a non-null
handle (the SUNDIALS ≥ 3.0 code path is modelled). -/
structure InitResp where
  idaInit : Int
  tolFlag : Int
  denseMatrixOk : Bool
  linsolDense : Int
  bandMatrixOk : Bool
  jacFn : Int
  userData : Int
  sensInitFlag : Int
  sensParams : Int
  maxOrd : Int
  maxSteps : Int
  initStep : Int
  stopTime : Int
  errTestFails : Int
  nonlinIters : Int
  convFails : Int
  suppressAlg : Int
  setConstr : Int
  quadInit : Int
  deriving DecidableEq

/-- `IDA_Solver::sensInit(double t0)`: clears the sensitivity-current flag,
allocates the `m_ns` zeroed sensitivity state/derivative vectors, registers
them with `IDASensInit` (staggered method), and derives the per-parameter
absolute tolerances by dividing `m_abstolsens` by each provider scale factor.
The `IDASensSStolerances` status is not checked by the source. -/
def sensInit (r : ResidJacEval) (flagSensInit : Int) (_t0 : ℚ)
    (s : SState) : SState × Except CanteraError Unit :=
  let s1 : SState := { s with
    m_sens_ok := false,
    m_yS := List.replicate s.m_ns (List.replicate s.m_neq (0 : ℚ)),
    m_ySdot := List.replicate s.m_ns (List.replicate s.m_neq (0 : ℚ)) }
  if flagSensInit ≠ IDA_SUCCESS then
    (s1, .error ⟨"IDA_Solver::sensInit", "Error in IDASensInit"⟩)
  else
    let _atol : List ℚ :=
      (List.range s1.m_ns).map (fun n => s1.m_abstolsens / r.paramScales.getD n 0)
    (s1, .ok ())

/-- Tail of `IDA_Solver::init`: the `IDAQuadInit` registration, performed
only when the provider reports quadrature equations. -/
def initQuad (r : ResidJacEval) (resp : InitResp)
    (s : SState) : SState × Except CanteraError Unit :=
  if 0 < r.nQuad then
    if resp.quadInit ≠ IDA_SUCCESS then
      (s, .error ⟨"IDA_Solver::init", "IDAQuadInit failed"⟩)
    else (s, .ok ())
  else (s, .ok ())

/-- Constraint section of `IDA_Solver::init`: when the provider reports
constraints, the (freshly zeroed) `m_constraints` vector is overwritten with
the provider's per-component tags and registered with the engine. -/
def initConstraints (r : ResidJacEval) (resp : InitResp)
    (s : SState) : SState × Except CanteraError Unit :=
  if 0 < r.nConstraintsCount then
    let cvec : List Int := (List.range s.m_neq).map r.constraint
    let s1 : SState := { s with m_constraints := some cvec }
    if resp.setConstr ≠ IDA_SUCCESS then
      (s1, .error ⟨"IDA_Solver::init", "IDASetConstraints failed"⟩)
    else initQuad r resp { s1 with engConstraints := some cvec }
  else initQuad r resp s

/-- Option section of `IDA_Solver::init`: each configured option is pushed to
the engine and its status checked, in source order. -/
def initOptions (r : ResidJacEval) (resp : InitResp)
    (s : SState) : SState × Except CanteraError Unit :=
  if 0 < s.m_maxord ∧ resp.maxOrd ≠ IDA_SUCCESS then
    (s, .error ⟨"IDA_Solver::init", "IDASetMaxOrd failed."⟩)
  else if 0 < s.m_maxsteps ∧ resp.maxSteps ≠ IDA_SUCCESS then
    (s, .error ⟨"IDA_Solver::init", "IDASetMaxNumSteps failed."⟩)
  else if 0 < s.m_h0 ∧ resp.initStep ≠ IDA_SUCCESS then
    (s, .error ⟨"IDA_Solver::init", "IDASetInitStep failed."⟩)
  else if 0 < s.m_tstop ∧ resp.stopTime ≠ IDA_SUCCESS then
    (s, .error ⟨"IDA_Solver::init", "IDASetStopTime failed."⟩)
  else if 0 ≤ s.m_maxErrTestFails ∧ resp.errTestFails ≠ IDA_SUCCESS then
    (s, .error ⟨"IDA_Solver::init", "IDASetMaxErrTestFails failed."⟩)
  else if 0 < s.m_maxNonlinIters ∧ resp.nonlinIters ≠ IDA_SUCCESS then
    (s, .error ⟨"IDA_Solver::init", "IDASetmaxNonlinIters failed."⟩)
  else if 0 ≤ s.m_maxNonlinConvFails ∧ resp.convFails ≠ IDA_SUCCESS then
    (s, .error ⟨"IDA_Solver::init", "IDASetMaxConvFails failed."⟩)
  else if s.m_setSuppressAlg ≠ 0 ∧ resp.suppressAlg ≠ IDA_SUCCESS then
    (s, .error ⟨"IDA_Solver::init", "IDASetSuppressAlg failed."⟩)
  else initConstraints r resp s

/-- Continuation of `IDA_Solver::init` after the linear-solver registration:
the optional analytic-Jacobian registration, `IDASetUserData`, the
sensitivity block (`sensInit` plus `IDASetSensParams`, only when `m_ns > 0`),
then the option/constraint/quadrature sections. -/
def initAfterLinSolver (r : ResidJacEval) (resp : InitResp) (t0 : ℚ)
    (s : SState) : SState × Except CanteraError Unit :=
  if s.m_formJac = 1 ∧ resp.jacFn ≠ IDA_SUCCESS then
    (s, .error ⟨"IDA_Solver::init", "IDADlsSetDenseJacFn failed."⟩)
  else if resp.userData ≠ IDA_SUCCESS then
    (s, .error ⟨"IDA_Solver::init", "IDASetUserData failed."⟩)
  else if 0 < s.m_ns then
    match sensInit r resp.sensInitFlag t0 s with
    | (s1, .error e) => (s1, .error e)
    | (s1, .ok _) =>
      if resp.sensParams ≠ IDA_SUCCESS then
        (s1, .error ⟨"IDA_Solver::init", "IDASetSensParams failed."⟩)
      else initOptions r resp s1
  else initOptions r resp s

/-- `IDA_Solver::init(doublereal t0)`. Resets the time bookkeeping, destroys
and recreates the vector families (zeroed), obtains the provider's initial
conditions, frees the old engine instance and creates a fresh one (so nothing
is registered with it yet), then performs the engine registration and option
chain, each status checked as in the source. -/
def init (r : ResidJacEval) (resp : InitResp) (t0 : ℚ)
    (s : SState) : SState × Except CanteraError Unit :=
  let s1 : SState := { s with
    m_t0 := t0, m_told := t0, m_told_old := t0, m_tcurrent := t0,
    m_y := (List.range s.m_neq).map (r.initY t0),
    m_ydot := (List.range s.m_neq).map (r.initYdot t0),
    m_constraints := some (List.replicate s.m_neq (0 : Int)),
    m_yQ := if 0 < r.nQuad then some (List.replicate r.nQuad (0 : ℚ)) else none,
    m_yQdot := if 0 < r.nQuad then some (List.replicate r.nQuad (0 : ℚ)) else none,
    m_ida_mem := true,
    engConstraints := none }
  if resp.idaInit ≠ IDA_SUCCESS then
    (s1, .error
      (if resp.idaInit = IDA_MEM_FAIL then
        ⟨"IDA_Solver::init", "Memory allocation failed."⟩
      else if resp.idaInit = IDA_ILL_INPUT then
        ⟨"IDA_Solver::init", "Illegal value for IDAInit input argument."⟩
      else ⟨"IDA_Solver::init", "IDAInit failed."⟩))
  else if resp.tolFlag ≠ IDA_SUCCESS then
    (s1, .error ⟨"IDA_Solver::init", "Memory allocation failed."⟩)
  else if s1.m_type = 1 ∨ s1.m_type = 0 then
    if ¬ resp.denseMatrixOk then
      (s1, .error ⟨"IDA_Solver::init", "Unable to create SUNDenseMatrix of size {0} x {0}"⟩)
    else if resp.linsolDense ≠ 0 then
      (s1, .error ⟨"IDA_Solver::init", "IDADense failed"⟩)
    else initAfterLinSolver r resp t0 s1
  else if s1.m_type = 2 then
    if ¬ resp.bandMatrixOk then
      (s1, .error ⟨"IDA_Solver::init",
        "Unable to create SUNBandMatrix of size {} with bandwidths {} and {}"⟩)
    else initAfterLinSolver r resp t0 s1
  else
    (s1, .error ⟨"IDA_Solver::init", "unsupported linear solver type"⟩)

/-- Decidable equality for `Except`, so that concrete runs of the embedded
operations can be checked by `decide`. -/
instance {ε α : Type} [DecidableEq ε] [DecidableEq α] :
    DecidableEq (Except ε α) := fun a b =>
  match a, b with
  | .error e, .error f =>
    if h : e = f then .isTrue (by rw [h]) else .isFalse (fun hh => h (by injection hh))
  | .ok x, .ok y =>
    if h : x = y then .isTrue (by rw [h]) else .isFalse (fun hh => h (by injection hh))
  | .error _, .ok _ => .isFalse (fun hh => by injection hh)
  | .ok _, .error _ => .isFalse (fun hh => by injection hh)

/-- A concrete adapter state used as the base of the concrete test states:
two equations, no sensitivity parameters, engine instance present, default
configuration values of the constructor. -/
def baseState : SState := {
  m_neq := 2
  m_ns := 0
  m_t0 := 0
  m_told_old := 0
  m_told := 0
  m_tcurrent := 0
  m_deltat := 0
  m_sens_ok := false
  m_itol := TolMode.SS
  m_reltol := 1 / 100000000
  m_abstols := 1 / 10000000000
  m_abstol := none
  m_constraints := none
  m_y := [0, 0]
  m_ydot := [0, 0]
  m_yS := []
  m_ySdot := []
  m_yQ := none
  m_yQdot := none
  m_ida_mem := true
  engConstraints := none
  m_type := 0
  m_mupper := 0
  m_mlower := 0
  m_formJac := 0
  m_maxord := 0
  m_maxsteps := 20000
  m_h0 := 0
  m_tstop := 0
  m_maxErrTestFails := -1
  m_maxNonlinIters := 0
  m_maxNonlinConvFails := -1
  m_setSuppressAlg := 0
  m_reltolsens := 1 / 100000
  m_abstolsens := 1 / 10000000 }

/-- C1 counterexample: when the provider reports the recoverable status 1,
both callbacks return 0 (success) to the engine, not a positive value as the
claim requires. -/
theorem C1_counterexample :
    providerRecoverable 1 ∧ ¬ 0 < ida_resid 1 ∧ ¬ 0 < ida_quad_rhs 1 := by
  unfold providerRecoverable ida_resid ida_quad_rhs
  decide

/-- C1 (amended): the return value of the residual and quadrature callbacks
as a function of the provider's status — 0 on provider success, the
provider's own negative value on unrecoverable failure, and 0 (success, not a
positive value) on a recoverable provider failure. -/
theorem C1_callback_return_contract (flag : Int) :
    (providerSuccess flag → ida_resid flag = 0 ∧ ida_quad_rhs flag = 0)
    ∧ (providerUnrecoverable flag →
        ida_resid flag = flag ∧ ida_quad_rhs flag = flag)
    ∧ (providerRecoverable flag → ida_resid flag = 0 ∧ ida_quad_rhs flag = 0) := by
  refine ⟨fun h => ?_, fun h => ?_, fun h => ?_⟩ <;>
    simp [providerSuccess, providerUnrecoverable, providerRecoverable] at h <;>
    constructor <;> simp [ida_resid, ida_quad_rhs, h] <;> omega

/-- Witness for `C1_callback_return_contract` at the provider statuses 0
(success), -3 (unrecoverable) and 2 (recoverable). -/
theorem C1_callback_return_contract_witness :
    (ida_resid 0 = 0 ∧ ida_quad_rhs 0 = 0)
    ∧ (ida_resid (-3) = -3 ∧ ida_quad_rhs (-3) = -3)
    ∧ (ida_resid 2 = 0 ∧ ida_quad_rhs 2 = 0) :=
  ⟨(C1_callback_return_contract 0).1 (by unfold providerSuccess; decide),
    (C1_callback_return_contract (-3)).2.1 (by unfold providerUnrecoverable; decide),
    (C1_callback_return_contract 2).2.2 (by unfold providerRecoverable; decide)⟩

/-- The state for the C8 counterexample: no engine instance exists yet
(before `init`). -/
def sNoMem : SState := { baseState with m_ida_mem := false }

/-- C8 counterexample: before `init` (no engine instance), the scalar
`setTolerances` overload called with the non-positive tolerances -1 and -1
raises no error and records both values verbatim (no validation, no
clamping); the vector overload behaves the same. -/
theorem C8_counterexample :
    (setTolerancesSS 0 (-1) (-1) sNoMem).2 = .ok ()
    ∧ (setTolerancesSS 0 (-1) (-1) sNoMem).1.m_reltol = -1
    ∧ (setTolerancesSS 0 (-1) (-1) sNoMem).1.m_abstols = -1
    ∧ (setTolerancesSV 0 (-1) (fun _ => -1) sNoMem).2 = .ok ()
    ∧ (setTolerancesSV 0 (-1) (fun _ => -1) sNoMem).1.m_abstol = some [-1, -1] := by
  decide

/-- C8 (amended): neither `setTolerances` overload validates positivity;
before `init` the values — non-positive ones included — are recorded
unchanged and the call succeeds; only when an engine instance exists is the
engine's own status consulted. -/
theorem C8_no_config_time_validation (engFlag : Int) (reltol abstol : ℚ)
    (abstolv : Nat → ℚ) (s : SState) (h : s.m_ida_mem = false) :
    setTolerancesSS engFlag reltol abstol s =
      ({ s with m_itol := TolMode.SS, m_reltol := reltol, m_abstols := abstol }, .ok ())
    ∧ setTolerancesSV engFlag reltol abstolv s =
      ({ s with m_itol := TolMode.SV, m_reltol := reltol,
                m_abstol := some ((List.range s.m_neq).map abstolv) }, .ok ()) := by
  constructor <;> simp [setTolerancesSS, setTolerancesSV, h]

/-- Witness for `C8_no_config_time_validation`: concrete pre-`init` call
recording the non-positive pair (0, -2). -/
theorem C8_no_config_time_validation_witness :
    setTolerancesSS 0 0 (-2) sNoMem =
      ({ sNoMem with m_itol := TolMode.SS, m_reltol := 0, m_abstols := -2 }, .ok ())
    ∧ setTolerancesSV 0 0 (fun _ => -2) sNoMem =
      ({ sNoMem with m_itol := TolMode.SV, m_reltol := 0,
                     m_abstol := some ((List.range sNoMem.m_neq).map (fun _ => -2)) }, .ok ()) :=
  C8_no_config_time_validation 0 0 (-2) (fun _ => -2) sNoMem rfl

/-- The state for the C9 counterexample: current time 0, target 1. -/
def sWarn : SState := baseState

/-- C9 counterexample: in `step`, a recoverable engine warning status
(`IDA_WARNING`) is fatal — the call raises an error instead of logging and
continuing, falsifying the claim for the `step` advancement operation. -/
theorem C9_counterexample :
    (step IDA_WARNING 1 1 sWarn).2 =
      .error ⟨"IDA_Solver::step", "IDA Warning encountered."⟩ := by
  decide

/-- Engine sensitivity-fetch responses used by the concrete runs: both
fetches succeed; the consistent-IC fetch yields the matrix [[11]], the
post-step fetch yields [[13]] and reports time 6. -/
def respS : SensResp :=
  { flagIC := 0, ySIC := [[11]], flagPost := 0, tretPost := 6, ySPost := [[13]] }

/-- One-equation, one-parameter state sitting exactly at the start time
(both times 0) with a stale sensitivity cache. -/
def sAtStart : SState := { baseState with
  m_neq := 1, m_ns := 1, m_sens_ok := false,
  m_t0 := 0, m_tcurrent := 0, m_y := [0], m_ydot := [0], m_yS := [[3]] }

/-- One-equation, one-parameter state away from the start time (start time 5,
current time 7) with a stale sensitivity cache. -/
def sAway : SState := { baseState with
  m_neq := 1, m_ns := 1, m_sens_ok := false,
  m_t0 := 5, m_tcurrent := 7, m_y := [0], m_ydot := [0], m_yS := [[3]] }

/-- C2: the fetch-selection condition is the assignment
`if (m_tcurrent = m_t0)`, not a comparison. At the start time with start time
0 (`sAtStart`), the code performs the standard post-step fetch although
current time equals start time; away from the start time with nonzero start
time (`sAway`), it performs the consistent-IC fetch although current time
differs from start time. Both directions contradict the claimed
if-and-only-if. -/
theorem C2_assignment_not_comparison :
    sAtStart.m_tcurrent = sAtStart.m_t0
    ∧ (sensitivity respS 0 0 sAtStart).2.1 = [SensFetch.postStep]
    ∧ sAway.m_tcurrent ≠ sAway.m_t0
    ∧ (sensitivity respS 0 0 sAway).2.1 = [SensFetch.consistentIC] := by
  decide

/-- C5: a successful `sensitivity` call on `sAway` (a non-stepping public
operation) changes `m_tcurrent` from 7 to 5 — the branch condition assigns
`m_t0` into `m_tcurrent` — contradicting the claim that only the stepping
operations update the time bookkeeping. -/
theorem C5_sensitivity_mutates_currentTime :
    sAway.m_tcurrent = 7
    ∧ (sensitivity respS 0 0 sAway).2.2 = .ok 11
    ∧ (sensitivity respS 0 0 sAway).1.m_tcurrent = 5 := by
  decide

/-- C10: when the cache is stale, sensitivity parameters exist and both
engine fetches would succeed, a call with an out-of-range equation or
parameter index still performs an engine fetch and marks the cache current
(`m_sens_ok = true`) before raising the out-of-range error: the failed call
changes adapter state. -/
theorem C10_fetch_precedes_range_check (resp : SensResp) (k p : Nat) (s : SState)
    (hstale : s.m_sens_ok = false) (hns : 0 < s.m_ns)
    (hIC : resp.flagIC = IDA_SUCCESS) (hPost : resp.flagPost = IDA_SUCCESS)
    (hout : s.m_neq ≤ k ∨ s.m_ns ≤ p) :
    (sensitivity resp k p s).2.1 ≠ []
    ∧ (sensitivity resp k p s).1.m_sens_ok = true
    ∧ ∃ e : CanteraError, (sensitivity resp k p s).2.2 = .error e := by
  unfold sensitivity
  simp only [hstale, hns, and_true, true_and, hIC, hPost, ne_eq,
    not_true_eq_false, if_false, ite_not]
  rcases hout with hk | hp
  · by_cases h0 : s.m_t0 = 0 <;>
      simp [h0, hk, Nat.not_lt.mpr hk, hstale, hns, hIC, hPost]
  · by_cases h0 : s.m_t0 = 0 <;>
      by_cases hk : s.m_neq ≤ k <;>
      simp [h0, hk, hp, hstale, hns, hIC, hPost]

/-- Witness for `C10_fetch_precedes_range_check`: on `sAway` (stale cache,
one parameter) the call `sensitivity(5, 0)` with out-of-range equation index
5 performs a fetch, marks the cache current and fails. -/
theorem C10_fetch_precedes_range_check_witness :
    (sensitivity respS 5 0 sAway).2.1 ≠ []
    ∧ (sensitivity respS 5 0 sAway).1.m_sens_ok = true
    ∧ ∃ e : CanteraError, (sensitivity respS 5 0 sAway).2.2 = .error e :=
  C10_fetch_precedes_range_check respS 5 0 sAway rfl (by decide) rfl rfl
    (Or.inl (by decide))

/-- C6: `step(tout)` with `tout ≤ m_tcurrent` (equality included) raises the
precondition-violation error immediately — the result is the same for every
engine response, so the engine's advance is never consulted, and the state is
unchanged (no silent no-op). With `tout > m_tcurrent` and an engine advance
that does not fail (non-negative status other than `IDA_WARNING`), `step`
returns the time the engine reached and installs it as the current time. -/
theorem C6_step_requires_future_target (s : SState) (tout : ℚ) :
    (tout ≤ s.m_tcurrent →
      ∀ flag t, step flag t tout s =
        (s, .error ⟨"IDA_Solver::step", "tout <= tcurrent"⟩))
    ∧ (s.m_tcurrent < tout →
      ∀ flag t, 0 ≤ flag → flag ≠ IDA_WARNING →
        step flag t tout s =
          ({ s with m_told_old := s.m_told, m_told := s.m_tcurrent,
                    m_tcurrent := t, m_deltat := t - s.m_tcurrent,
                    m_sens_ok := false }, .ok t)) := by
  constructor
  · intro h flag t
    simp [step, h]
  · intro h flag t h0 hw
    rw [step, if_neg (not_le.mpr h)]
    simp only [Int.not_lt.mpr h0, if_false]
    have hlt : ¬ flag < 0 := Int.not_lt.mpr h0
    by_cases h1 : flag = IDA_TSTOP_RETURN <;>
      by_cases h2 : flag = IDA_ROOT_RETURN <;>
      simp [hlt, h1, h2, hw]

/-- Witness for `C6_step_requires_future_target`: with current time 0, the
call `step(0)` fails with the precondition error even though the engine
response (flag 0, time 7) would have succeeded, and the call `step(1)` with a
successful engine advance to time 1/2 returns 1/2. -/
theorem C6_step_requires_future_target_witness :
    step 0 7 0 baseState =
      (baseState, .error ⟨"IDA_Solver::step", "tout <= tcurrent"⟩)
    ∧ step 0 (1/2) 1 baseState =
      ({ baseState with m_told_old := baseState.m_told,
                        m_told := baseState.m_tcurrent,
                        m_tcurrent := 1/2,
                        m_deltat := 1/2 - baseState.m_tcurrent,
                        m_sens_ok := false }, .ok (1/2)) :=
  ⟨(C6_step_requires_future_target baseState 0).1 (by decide) 0 7,
    (C6_step_requires_future_target baseState 1).2 (by decide) 0 (1/2)
      (by decide) (by decide)⟩

/-- C7: entering `solve(tout)` with `tout ≤ m_tcurrent` (and the engine
accepting the stop time) terminates cleanly — the loop body logs the
end-time message and breaks before any `IDASolve` call, so the result is the
same for every engine response list — raising no error and returning the
success status; and calling `solve` again on the resulting state with the
same target yields the identical successful outcome (idempotence in
outcome). -/
theorem C7_solve_noop_when_reached (s : SState) (tout : ℚ)
    (h : tout ≤ s.m_tcurrent) :
    (∀ resp, solve IDA_SUCCESS resp tout s =
      ({ s with m_sens_ok := false },
        ["Simulation end time reached\n"], .ok IDA_SUCCESS))
    ∧ (∀ resp, solve IDA_SUCCESS resp tout { s with m_sens_ok := false } =
      ({ s with m_sens_ok := false },
        ["Simulation end time reached\n"], .ok IDA_SUCCESS)) := by
  have key : ∀ (s' : SState), tout ≤ s'.m_tcurrent →
      ∀ resp, solve IDA_SUCCESS resp tout s' =
        ({ s' with m_sens_ok := false },
          ["Simulation end time reached\n"], .ok IDA_SUCCESS) := by
    intro s' h' resp
    rw [solve]
    rw [solveLoop.eq_def]
    have h1000 : tout - 1000 < tout := by linarith
    simp [h1000, h']
  refine ⟨key s h, fun resp => ?_⟩
  have := key { s with m_sens_ok := false } (by simpa using h) resp
  simpa using this

/-- Witness for `C7_solve_noop_when_reached`: with current time 3 and target
3 (already reached), both the first and the repeated `solve` call return
success without consulting the engine response — here a would-be-fatal
response (-1, 0). -/
theorem C7_solve_noop_when_reached_witness :
    solve IDA_SUCCESS [(-1, 0)] 3 { baseState with m_tcurrent := 3 } =
      ({ baseState with m_tcurrent := 3, m_sens_ok := false },
        ["Simulation end time reached\n"], .ok IDA_SUCCESS)
    ∧ solve IDA_SUCCESS [(-1, 0)] 3
        { baseState with m_tcurrent := 3, m_sens_ok := false } =
      ({ baseState with m_tcurrent := 3, m_sens_ok := false },
        ["Simulation end time reached\n"], .ok IDA_SUCCESS) :=
  ⟨(C7_solve_noop_when_reached { baseState with m_tcurrent := 3 } 3
      (by decide)).1 [(-1, 0)],
    (C7_solve_noop_when_reached { baseState with m_tcurrent := 3 } 3
      (by decide)).2 [(-1, 0)]⟩

/-- C9 (amended, `solve` part): inside `solve`'s loop a recoverable engine
warning is non-fatal — the warning is logged, the loop continues, and with a
subsequent successful advance reaching the target the call returns success
with the warning message in the log and the current time at the final
reached time. (In `step`, by contrast, a warning raises an error.) -/
theorem C9_solve_warning_nonfatal (s : SState) (tout t1 t2 : ℚ)
    (h0 : s.m_tcurrent < tout) (h1 : t1 < tout) (h2 : tout ≤ t2) :
    (solve IDA_SUCCESS [(IDA_WARNING, t1), (IDA_SUCCESS, t2)] tout s).2.2 =
      .ok IDA_SUCCESS
    ∧ "DAE Solver WARNING!\n" ∈
      (solve IDA_SUCCESS [(IDA_WARNING, t1), (IDA_SUCCESS, t2)] tout s).2.1
    ∧ (solve IDA_SUCCESS
        [(IDA_WARNING, t1), (IDA_SUCCESS, t2)] tout s).1.m_tcurrent = t2 := by
  have hA : ¬ tout ≤ s.m_tcurrent := not_le.mpr h0
  have hB : ¬ tout ≤ t1 := not_le.mpr h1
  have hC : ¬ t2 < tout := not_lt.mpr h2
  have h1000 : tout - 1000 < tout := by linarith
  simp +decide [solve, solveLoop, hA, hB, hC, h1000, h1]

/-- Witness for `C9_solve_warning_nonfatal`: from current time 0 with target
1, the engine first warns at time 1/2 and then succeeds at time 1; the call
returns success, the warning is logged, integration reached time 1. -/
theorem C9_solve_warning_nonfatal_witness :
    (solve IDA_SUCCESS [(IDA_WARNING, 1/2), (IDA_SUCCESS, 1)] 1 baseState).2.2 =
      .ok IDA_SUCCESS
    ∧ "DAE Solver WARNING!\n" ∈
      (solve IDA_SUCCESS [(IDA_WARNING, 1/2), (IDA_SUCCESS, 1)] 1 baseState).2.1
    ∧ (solve IDA_SUCCESS
        [(IDA_WARNING, 1/2), (IDA_SUCCESS, 1)] 1 baseState).1.m_tcurrent = 1 :=
  C9_solve_warning_nonfatal baseState 1 (1/2) 1 (by norm_num [baseState])
    (by norm_num) (by norm_num)

/-- If some index below `fuel` (offset from `i`) carries an invalid tag, the
validate-and-write loop of `setConstraints` aborts with `false`. -/
theorem setConstraintsLoop_invalid (cf : Nat → Int) :
    ∀ fuel i v, (∃ j, j < fuel ∧ checkFlag (cf (i + j)) = false) →
      (setConstraintsLoop cf i fuel v).2 = false := by
  intro fuel
  induction fuel with
  | zero =>
    intro i v hj
    rcases hj with ⟨j, hj, _⟩
    omega
  | succ n ih =>
    intro i v hj
    rcases hj with ⟨j, hj, hcf⟩
    by_cases hc : checkFlag (cf i)
    · simp only [setConstraintsLoop, hc, if_true]
      apply ih
      cases j with
      | zero =>
        exfalso
        rw [Nat.add_zero] at hcf
        rw [hcf] at hc
        exact Bool.noConfusion hc
      | succ m =>
        refine ⟨m, by omega, ?_⟩
        rw [show i + 1 + m = i + (m + 1) from by omega]
        exact hcf
    · simp [setConstraintsLoop, hc]

/-- C4 (amended): when the new array contains an invalid tag among its first
`m_neq` entries, the whole-vector setter raises the configuration error and
leaves the constraints registered with the engine unchanged — but (per the
counterexample) tags of the new array preceding the first invalid one have
already been written into the stored constraint vector; the validation is
interleaved with the writes, not performed before them. -/
theorem C4_invalid_tag_error_engine_unchanged (engFlag : Int) (cf : Nat → Int)
    (s : SState) (h : ∃ j, j < s.m_neq ∧ checkFlag (cf j) = false) :
    (setConstraints engFlag cf s).2 =
      .error ⟨"IDA_Solver::setConstraints", "Invalid Constraint vaue detected"⟩
    ∧ (setConstraints engFlag cf s).1.engConstraints = s.engConstraints := by
  have hloop : (setConstraintsLoop cf 0 s.m_neq
      (s.m_constraints.getD (List.replicate s.m_neq 0))).2 = false := by
    apply setConstraintsLoop_invalid
    rcases h with ⟨j, hj, hcf⟩
    exact ⟨j, hj, by simpa using hcf⟩
  unfold setConstraints
  rcases hres : setConstraintsLoop cf 0 s.m_neq
      (s.m_constraints.getD (List.replicate s.m_neq 0)) with ⟨v, b⟩
  rw [hres] at hloop
  simp only at hloop
  subst hloop
  simp [hres]

/-- State for the C4 runs: two equations, constraints [≥0, ≥0] stored and
registered with the live engine. -/
def sConstrained : SState := { baseState with
  m_constraints := some [1, 1], engConstraints := some [1, 1] }

/-- The invalid update array for C4: a valid `none` tag at index 0 followed
by the invalid tag 99 at index 1. -/
def cfInvalid : Nat → Int := fun i => if i = 0 then c_NONE else 99

/-- C4 counterexample: `setConstraints` on `sConstrained` with the array
[none, 99] raises the configuration error, yet the stored constraint vector
has changed from [1, 1] to [0, 1]: the valid tag at index 0 was applied
before the invalid tag was detected, so the failure is not atomic for the
stored vector. -/
theorem C4_counterexample :
    (setConstraints 0 cfInvalid sConstrained).2 =
      .error ⟨"IDA_Solver::setConstraints", "Invalid Constraint vaue detected"⟩
    ∧ sConstrained.m_constraints = some [1, 1]
    ∧ (setConstraints 0 cfInvalid sConstrained).1.m_constraints = some [0, 1] := by
  decide

/-- Witness for `C4_invalid_tag_error_engine_unchanged` on the concrete
`sConstrained` / `cfInvalid` run. -/
theorem C4_invalid_tag_error_engine_unchanged_witness :
    (setConstraints 0 cfInvalid sConstrained).2 =
      .error ⟨"IDA_Solver::setConstraints", "Invalid Constraint vaue detected"⟩
    ∧ (setConstraints 0 cfInvalid sConstrained).1.engConstraints =
      sConstrained.engConstraints :=
  C4_invalid_tag_error_engine_unchanged 0 cfInvalid sConstrained
    ⟨1, by decide, by decide⟩

/-- Engine responses for an `init` run in which every engine call succeeds
and both matrix allocations work. -/
def respAllOk : InitResp := {
  idaInit := 0, tolFlag := 0, denseMatrixOk := true, linsolDense := 0,
  bandMatrixOk := true, jacFn := 0, userData := 0, sensInitFlag := 0,
  sensParams := 0, maxOrd := 0, maxSteps := 0, initStep := 0, stopTime := 0,
  errTestFails := 0, nonlinIters := 0, convFails := 0, suppressAlg := 0,
  setConstr := 0, quadInit := 0 }

/-- A provider that reports no constraints (and no quadrature equations). -/
def provNoConstraints : ResidJacEval := {
  nQuad := 0, nConstraintsCount := 0, constraint := fun _ => 0,
  initY := fun _ _ => 0, initYdot := fun _ _ => 0, paramScales := [] }

/-- The caller's constraint array for C3: tag ≥0 on component 0, none on
component 1 — the spec's scenario `[≥0, none]`. -/
def cfGEnone : Nat → Int := fun i => if i = 0 then c_GE_ZERO else c_NONE

/-- The adapter before `init`, after the caller installed `[≥0, none]`
through the whole-vector constraint setter (no engine instance exists yet,
so the tags are only stored). -/
def sPreInit : SState :=
  (setConstraints 0 cfGEnone { baseState with m_ida_mem := false }).1

/-- C3 counterexample: the constraint tags `[≥0, none]` installed through the
setter before `init` are NOT re-registered with the engine by `init`: with a
provider reporting no constraints, `init` succeeds, registers no constraints
with the fresh engine instance, and zeroes the stored constraint vector —
the setter-installed tags are discarded. -/
theorem C3_counterexample :
    sPreInit.m_constraints = some [1, 0]
    ∧ (init provNoConstraints respAllOk 0 sPreInit).2 = .ok ()
    ∧ (init provNoConstraints respAllOk 0 sPreInit).1.engConstraints = none
    ∧ (init provNoConstraints respAllOk 0 sPreInit).1.m_constraints =
      some [0, 0] := by
  decide

/-- C3 (amended): after a successful `init` (all engine calls succeeding,
dense linear solver), the constraints registered with the fresh engine
instance are exactly the provider's reported constraint tags when the
provider reports at least one constraint, and none otherwise; the stored
constraint vector likewise holds the provider's tags or stays zeroed.
Constraint tags installed through the setter before `init` are not
re-applied. -/
theorem C3_init_constraints_from_provider (r : ResidJacEval) (t0 : ℚ)
    (s : SState) (htype : s.m_type = 0) :
    (init r respAllOk t0 s).2 = .ok ()
    ∧ (init r respAllOk t0 s).1.engConstraints =
      (if 0 < r.nConstraintsCount then
        some ((List.range s.m_neq).map r.constraint) else none)
    ∧ (init r respAllOk t0 s).1.m_constraints =
      (if 0 < r.nConstraintsCount then
        some ((List.range s.m_neq).map r.constraint)
      else some (List.replicate s.m_neq 0)) := by
  have hops : ∀ (s' : SState), s'.m_neq = s.m_neq →
      s'.engConstraints = none →
      s'.m_constraints = some (List.replicate s.m_neq 0) →
      (initOptions r respAllOk s').2 = .ok ()
      ∧ (initOptions r respAllOk s').1.engConstraints =
        (if 0 < r.nConstraintsCount then
          some ((List.range s.m_neq).map r.constraint) else none)
      ∧ (initOptions r respAllOk s').1.m_constraints =
        (if 0 < r.nConstraintsCount then
          some ((List.range s.m_neq).map r.constraint)
        else some (List.replicate s.m_neq 0)) := by
    intro s' hneq heng hcon
    by_cases hc : 0 < r.nConstraintsCount <;>
      by_cases hq : 0 < r.nQuad <;>
      simp [initOptions, initConstraints, initQuad, respAllOk, hc, hq,
        hneq, heng, hcon, IDA_SUCCESS]
  by_cases hns : 0 < s.m_ns <;>
    simp only [init, initAfterLinSolver, sensInit, respAllOk, IDA_SUCCESS,
      htype, hns, ne_eq, not_true_eq_false, not_false_eq_true, if_true,
      if_false, ite_true, ite_false] <;>
    simp [htype, hns] <;>
    (apply hops <;> simp)

/-- A provider reporting one constraint, with tags >0 on component 0 and ≤0
on component 1. -/
def provWithConstraints : ResidJacEval := {
  nQuad := 0, nConstraintsCount := 1,
  constraint := fun i => if i = 0 then c_GT_ZERO else c_LE_ZERO,
  initY := fun _ _ => 1, initYdot := fun _ _ => 0, paramScales := [] }

/-- Witness for `C3_init_constraints_from_provider`: a concrete successful
`init` run on `baseState` with `provWithConstraints`, whose tags end up both
stored and registered with the engine. -/
theorem C3_init_constraints_from_provider_witness :
    (init provWithConstraints respAllOk 0 baseState).2 = .ok ()
    ∧ (init provWithConstraints respAllOk 0 baseState).1.engConstraints =
      (if 0 < provWithConstraints.nConstraintsCount then
        some ((List.range baseState.m_neq).map provWithConstraints.constraint)
      else none)
    ∧ (init provWithConstraints respAllOk 0 baseState).1.m_constraints =
      (if 0 < provWithConstraints.nConstraintsCount then
        some ((List.range baseState.m_neq).map provWithConstraints.constraint)
      else some (List.replicate baseState.m_neq 0)) :=
  C3_init_constraints_from_provider provWithConstraints 0 baseState rfl
